import Mathlib

/-!
Shallow embedding of the core logic of `dkr.py` (a Docker dev-environment
builder driving git and docker through subprocesses).

Python strings are char sequences, so every Python string primitive the
source uses (`strip`, `split`, `partition`, `startswith`, ...) is modelled
here as a function on the underlying `List Char` of a Lean `String`.
External collaborators (git, docker, `json.loads`, the clock, `input()`)
are passed in as explicit parameters/oracles; the functions under
verification are direct translations of the Python bodies.
-/

namespace Dkr

/-- Python whitespace for `str.strip` / `str.split()` (" \t\n\r\x0b\x0c"). -/
def pyIsSpace (c : Char) : Bool :=
  c = ' ' || c = '\t' || c = '\n' || c = '\r' || c = '\x0b' || c = '\x0c'

/-- Python `str.strip()` on the char list. -/
def pyStripList (l : List Char) : List Char :=
  ((l.dropWhile pyIsSpace).reverse.dropWhile pyIsSpace).reverse

/-- Python `str.strip()`. -/
def pyStrip (s : String) : String :=
  String.mk (pyStripList s.data)

/-- Python `str.startswith(p)`. -/
def pyStartsWith (s p : String) : Bool :=
  p.data.isPrefixOf s.data

/-- Python `str.endswith(p)`. -/
def pyEndsWith (s p : String) : Bool :=
  p.data.isSuffixOf s.data

/-- Python `c in s` for a single character. -/
def pyContainsChar (s : String) (c : Char) : Bool :=
  s.data.contains c

/-- Python `s.split(c)` for a one-character separator: splits at every
occurrence keeping empty pieces, so `"".split(c) == [""]`. -/
def pySplitOn (s : String) (c : Char) : List String :=
  (s.data.splitOn c).map String.mk

/-- Python `s.split()` (no separator): split on whitespace runs, no empties. -/
def pySplitWs (s : String) : List String :=
  ((s.data.splitOnP pyIsSpace).filter (fun l => l ≠ [])).map String.mk

/-- First component of Python `s.partition(c)` (text before the first `c`;
the whole string if `c` is absent). -/
def pyPartitionFst (s : String) (c : Char) : String :=
  String.mk (s.data.takeWhile (fun x => x ≠ c))

/-- Third component of Python `s.partition(c)` (text after the first `c`;
empty if `c` is absent). -/
def pyPartitionSnd (s : String) (c : Char) : String :=
  String.mk ((s.data.dropWhile (fun x => x ≠ c)).drop 1)

/-- Python `"sep".join(xs)`. -/
def pyJoin (sep : String) (xs : List String) : String :=
  String.mk (List.intercalate sep.data (xs.map String.data))

/-- Python truthiness of a `str`-or-`None` value: `None` and `""` are falsy. -/
def pyTruthy : Option String → Bool
  | none => false
  | some s => s ≠ ""

/-- Python `a or b` on two `str`-or-`None` values. -/
def pyOrO (a b : Option String) : Option String :=
  if pyTruthy a then a else b

/-- Python `a or b` where `b` is a plain `str`. -/
def pyOrS (a : Option String) (b : String) : String :=
  match a with
  | none => b
  | some s => if s = "" then b else s

/-- Python lexicographic `<=` on char lists (code-point order). -/
def leChars : List Char → List Char → Bool
  | [], _ => true
  | _ :: _, [] => false
  | a :: as, b :: bs => if a < b then true else if b < a then false else leChars as bs

/-- Python string `<=` (lexicographic on code points). -/
def pyStrLe (a b : String) : Bool :=
  leChars a.data b.data

/-- A Python `dict` from `str` to `str`, as an insertion-ordered assoc list. -/
abbrev Dict := List (String × String)

/-- Python `d[k] = v`: overwrite in place if present, else append. -/
def dictSet (d : Dict) (k v : String) : Dict :=
  if d.any (fun p => p.1 = k) then
    d.map (fun p => if p.1 = k then (k, v) else p)
  else
    d ++ [(k, v)]

/-- Python `d.get(k)`: `None` when the key is absent. -/
def dictGet (d : Dict) (k : String) : Option String :=
  (d.find? (fun p => p.1 = k)).map (fun p => p.2)

/-! ## Reference resolution (`parse_branch_ref`, dkr.py lines 58-73) -/

/-- The (stripped) stdout of `git remote` for a repository whose configured
remote names are `remotes`: one name per line, empty for no remotes. -/
def gitRemoteStdout (remotes : List String) : String :=
  pyJoin "\n" remotes

/-- Function `parse_branch_ref(branch_from, repo_path)` from dkr.py.  `repo_path` is
modelled by the repository's configured remote names (`none` when the Python
caller passes no `repo_path`); the body consumes them exactly as the source
consumes `git(repo_path, "remote").split("\n")`. -/
def parse_branch_ref (branch_from : Option String) (repo_path : Option (List String)) :
    Option String × String :=
  if !(pyTruthy branch_from) || branch_from = some "HEAD" then
    (none, "HEAD")
  else
    let bf := branch_from.getD ""
    if pyContainsChar bf '/' && repo_path.isSome then
      let candidate_remote := pyPartitionFst bf '/'
      let branch := pyPartitionSnd bf '/'
      let remotes := pySplitOn (gitRemoteStdout (repo_path.getD [])) '\n'
      if remotes.contains candidate_remote then
        (some candidate_remote, branch)
      else
        (none, bf)
    else
      (none, bf)

/-! ## Tags and labels (`sanitize_tag`, `image_tag`, `build_labels`) -/

/-- The char class `[a-zA-Z0-9._-]` of the sanitizing regex in dkr.py. -/
def allowedTagChar (c : Char) : Bool :=
  ('a' ≤ c && c ≤ 'z') || ('A' ≤ c && c ≤ 'Z') || ('0' ≤ c && c ≤ '9') ||
    c = '.' || c = '_' || c = '-'

/-- Function `sanitize_tag` from dkr.py: `re.sub(r"[^a-zA-Z0-9._-]", "-", name)`. -/
def sanitize_tag (name : String) : String :=
  String.mk (name.data.map (fun c => if allowedTagChar c then c else '-'))

/-- Function `image_tag` from dkr.py (`repo_name` stands for `repo_path.name`). -/
def image_tag (repo_name branch : String) : String :=
  "dkr:" ++ sanitize_tag repo_name ++ "-" ++ sanitize_tag branch

/-- Function `build_labels` from dkr.py.  `repo_path`/`repo_name` stand for
`str(repo_path)`/`repo_path.name`, and `created_at` for the value of
`datetime.now(timezone.utc).isoformat()` (the external clock). -/
def build_labels (repo_path repo_name branch commit image_type created_at : String)
    (branch_from : Option String) : Dict :=
  [("dkr.repo_path", repo_path),
   ("dkr.repo_name", repo_name),
   ("dkr.branch", branch),
   ("dkr.branch_from", pyOrS branch_from branch),
   ("dkr.commit", commit),
   ("dkr.created_at", created_at),
   ("dkr.type", image_type)]

/-! ## `.dkr.conf` loading (`load_dkr_conf`, dkr.py lines 220-254) -/

/-- Constant `DKR_CONF_DEFAULTS` from dkr.py, as the initial conf dict. -/
def DKR_CONF_DEFAULTS : Dict :=
  [("base_image", "fedora:43"),
   ("packages", ""),
   ("volumes", ""),
   ("pre_clone", ""),
   ("post_clone", "")]

/-- The section-header test of dkr.py line 241:
`stripped.startswith("[") and stripped.endswith("]")`. -/
def isHeaderLine (stripped : String) : Bool :=
  pyStartsWith stripped "[" && pyEndsWith stripped "]"

/-- Python `stripped[1:-1]` (used on recognized section headers). -/
def headerName (stripped : String) : String :=
  String.mk ((stripped.data.drop 1).dropLast)

/-- The `for line in conf_file.read_text().splitlines()` loop of
`load_dkr_conf`, carrying `current_section`, the two `section_lines` lists
and the conf dict. -/
def loadLoop : List String → Option String → List String → List String → Dict →
    List String × List String × Dict
  | [], _, pre, post, conf => (pre, post, conf)
  | line :: rest, cs, pre, post, conf =>
    let stripped := pyStrip line
    if stripped = "" ∨ pyStartsWith stripped "#" then
      loadLoop rest cs pre post conf
    else if isHeaderLine stripped then
      loadLoop rest (some (headerName stripped)) pre post conf
    else if cs = some "pre_clone" then
      loadLoop rest cs (pre ++ [line]) post conf
    else if cs = some "post_clone" then
      loadLoop rest cs pre (post ++ [line]) conf
    else if pyContainsChar stripped '=' then
      loadLoop rest cs pre post
        (dictSet conf (pyStrip (pyPartitionFst stripped '='))
          (pyStrip (pyPartitionSnd stripped '=')))
    else
      loadLoop rest cs pre post conf

/-- Function `load_dkr_conf` from dkr.py, on the lines of the config file (the result
of `conf_file.read_text().splitlines()`; a missing file short-circuits to the
defaults before this loop and is not modelled). -/
def load_dkr_conf (lines : List String) : Dict :=
  let r := loadLoop lines none [] [] DKR_CONF_DEFAULTS
  dictSet (dictSet r.2.2 "pre_clone" (pyJoin "\n" r.1)) "post_clone" (pyJoin "\n" r.2.1)

/-- Specification-side description of the `[pre_clone]`/`[post_clone]`
fragments (for the amended claim C2): walking the file with the same
section-header rule as the loader, collect — verbatim and untrimmed — every
line of the `target` section except blank lines, lines whose stripped form
begins with `#`, and section-header-shaped lines. -/
def collectSection (target : String) : Option String → List String → List String
  | _, [] => []
  | cs, line :: rest =>
    let stripped := pyStrip line
    if stripped = "" ∨ pyStartsWith stripped "#" then
      collectSection target cs rest
    else if isHeaderLine stripped then
      collectSection target (some (headerName stripped)) rest
    else if cs = some target then
      line :: collectSection target cs rest
    else
      collectSection target cs rest

/-! ## Build-spec synthesis (`generate_dockerfile_create`, dkr.py 257-319) -/

/-- Constant `REQUIRED_PACKAGES` from dkr.py. -/
def REQUIRED_PACKAGES : List String :=
  ["git", "tmux", "openssh-clients", "curl"]

/-- Assignment `user_pkgs = conf["packages"].split() if conf["packages"] else []`. -/
def user_pkgs (packages : String) : List String :=
  if packages ≠ "" then pySplitWs packages else []

/-- Assignment `all_pkgs = REQUIRED_PACKAGES + [p for p in user_pkgs if p not in
REQUIRED_PACKAGES]` (dkr.py line 263). -/
def all_pkgs (packages : String) : List String :=
  REQUIRED_PACKAGES ++ (user_pkgs packages).filter (fun p => !(REQUIRED_PACKAGES.contains p))

/-- Function `generate_dockerfile_create` from dkr.py. -/
def generate_dockerfile_create (conf : Dict) : String :=
  let base_image := (dictGet conf "base_image").getD ""
  let pkg_list := pyJoin " " (all_pkgs ((dictGet conf "packages").getD ""))
  let pre_clone := (dictGet conf "pre_clone").getD ""
  let post_clone := (dictGet conf "post_clone").getD ""
  let lines : List String :=
    ["# syntax=docker/dockerfile:1",
     "FROM " ++ base_image,
     "",
     "ENV LANG=C.UTF-8",
     "",
     "COPY .dkr-install-packages.sh /tmp/install-packages.sh",
     "RUN chmod +x /tmp/install-packages.sh && \\",
     "    /tmp/install-packages.sh " ++ pkg_list ++ " && \\",
     "    rm /tmp/install-packages.sh",
     "",
     "ARG CLAUDE_VERSION=latest",
     "RUN curl -fsSL https://claude.ai/install.sh | bash",
     "ENV PATH=/root/.local/bin:$PATH",
     "",
     "ARG REPO_PATH",
     "ARG BRANCH",
     "ARG GIT_USER",
     "ARG HOST_ADDR=host.docker.internal",
     "",
     "RUN mkdir -p /root/.ssh && \\",
     "    ssh-keyscan -H ${HOST_ADDR} >> /root/.ssh/known_hosts 2>/dev/null || true",
     ""]
  let lines := if pre_clone ≠ "" then lines ++ [pre_clone, ""] else lines
  let lines := lines ++
    ["RUN --mount=type=ssh \\",
     "    git clone ${GIT_USER}@${HOST_ADDR}:${REPO_PATH} /workspace",
     "",
     "RUN cd /workspace && git remote rename origin host && git checkout ${BRANCH}",
     "",
     "ENV DKR_BRANCH=${BRANCH}",
     ""]
  let lines := if post_clone ≠ "" then lines ++ [post_clone, ""] else lines
  let lines := lines ++
    ["COPY .dkr-entrypoint.sh /entrypoint.sh",
     "RUN chmod +x /entrypoint.sh",
     "",
     "WORKDIR /workspace",
     "ENTRYPOINT [\"/entrypoint.sh\"]",
     ""]
  pyJoin "\n" lines

/-! ## Image inventory (`find_images`, dkr.py lines 156-196) -/

/-- One element of the JSON array printed by `docker inspect`, restricted to
the fields dkr.py reads: `img["Id"]`, `img.get("RepoTags")`,
`img.get("Config", {}).get("Labels")`. -/
structure DockerImage where
  id : String
  repoTags : Option (List String)
  labels : Option Dict
deriving DecidableEq, Repr

/-- The dict dkr.py appends to `results` for each retained image. -/
structure ImageRecord where
  id : String
  tags : List String
  labels : Dict
deriving DecidableEq, Repr

/-- Outcome of a `subprocess.run(..., check=False)` call: return code and
captured stdout. -/
structure CmdResult where
  returncode : Int
  stdout : String
deriving DecidableEq, Repr

/-- Helper for `list(dict.fromkeys(ids))`: dedupe preserving first occurrence. -/
def pyDedupGo : List String → List String → List String
  | [], _ => []
  | x :: xs, seen => if seen.contains x then pyDedupGo xs seen else x :: pyDedupGo xs (x :: seen)

/-- Python `list(dict.fromkeys(ids))` from dkr.py line 169. -/
def pyDedup (l : List String) : List String :=
  pyDedupGo l []

/-- Assignment `image_ids = list(dict.fromkeys(r.stdout.strip().split("\n")))` from
dkr.py line 169. -/
def image_ids_of (stdout : String) : List String :=
  pyDedup (pySplitOn (pyStrip stdout) '\n')

/-- The sort key of dkr.py line 195: `x["labels"].get("dkr.created_at", "")`. -/
def createdKey (r : ImageRecord) : String :=
  (dictGet r.labels "dkr.created_at").getD ""

/-- The per-image body of the `for img in images` loop of `find_images`:
`none` when the image is skipped by a `continue`. -/
def imageRecordOf (repo_path branch : Option String) (img : DockerImage) :
    Option ImageRecord :=
  let labels := img.labels.getD []
  if (dictGet labels "dkr.repo_name").isNone then
    none
  else if repo_path.isSome ∧ dictGet labels "dkr.repo_path" ≠ repo_path then
    none
  else if pyTruthy branch ∧
      ¬ (dictGet labels "dkr.branch" = branch ∨ dictGet labels "dkr.branch_from" = branch) then
    none
  else
    some ⟨img.id, img.repoTags.getD [], labels⟩

/-- Function `find_images` from dkr.py.  `repo_path` is `str(repo_path)` or `None`;
`listResult` and `inspectResult` are the outcomes of the two
`subprocess.run` calls on docker; `jsonParse` is the external `json.loads`
applied to the inspect stdout (`Except.error` when it raises, which the
source does not catch).  `results.sort(key=..., reverse=True)` — a stable
descending sort by the `dkr.created_at` label — is modelled by the stable
`List.insertionSort`. -/
def find_images (repo_path branch : Option String)
    (listResult inspectResult : CmdResult)
    (jsonParse : String → Except Unit (List DockerImage)) :
    Except Unit (List ImageRecord) :=
  if listResult.returncode ≠ 0 ∨ pyStrip listResult.stdout = "" then
    .ok []
  else if image_ids_of listResult.stdout = [] then
    .ok []
  else if inspectResult.returncode ≠ 0 then
    .ok []
  else
    match jsonParse inspectResult.stdout with
    | .error e => .error e
    | .ok images =>
      .ok ((images.filterMap (imageRecordOf repo_path branch)).insertionSort
        (fun a b => pyStrLe (createdKey b) (createdKey a) = true))

/-! ## Staleness (`staleness_check`, dkr.py lines 467-498) -/

/-- Constant `STALENESS_THRESHOLD` from dkr.py line 19. -/
def STALENESS_THRESHOLD : Nat := 50

/-- The three values `staleness_check` can return: `True` (proceed),
`False` (do not start), or the string `"update"`. -/
inductive StartDecision
  | proceed
  | abort
  | update
deriving DecidableEq, Repr

/-- Assignment `branch = labels.get("dkr.branch_from") or labels.get("dkr.branch")`. -/
def stalenessBranch (labels : Dict) : Option String :=
  pyOrO (dictGet labels "dkr.branch_from") (dictGet labels "dkr.branch")

/-- The range string `f"{image_commit}..{branch}"` handed to
`git rev-list --count`. -/
def stalenessRange (labels : Dict) : String :=
  (dictGet labels "dkr.commit").getD "" ++ ".." ++ (stalenessBranch labels).getD ""

/-- Function `staleness_check` from dkr.py.  The git collaborator is modelled by
`revParseVerify` (stripped stdout of `git rev-parse --verify <branch>`,
`check=False`) and `revListCount` (the commit count from
`git rev-list --count <commit>..<branch>` after `int()`, `Except.error` when
the subprocess fails or the parse raises `ValueError`); the two interactive
`input()` prompts are the oracles `promptUpdateYes` (answer to the
update-the-image prompt, shown the drift count) and `promptAnywayYes`
(answer to the start-anyway prompt on an uncomparable commit). -/
def staleness_check (labels : Dict)
    (revParseVerify : String → String)
    (revListCount : String → Except Unit Nat)
    (promptUpdateYes : Nat → Bool)
    (promptAnywayYes : Bool) : StartDecision :=
  let image_commit := dictGet labels "dkr.commit"
  let branch := stalenessBranch labels
  if !(pyTruthy image_commit) || !(pyTruthy branch) then
    .proceed
  else if revParseVerify (branch.getD "") = "" then
    .proceed
  else
    match revListCount (stalenessRange labels) with
    | .error _ => if promptAnywayYes then .proceed else .abort
    | .ok behind =>
      if behind > STALENESS_THRESHOLD then
        if promptUpdateYes behind then .update else .proceed
      else
        .proceed

/-! ## Theorems -/

/-- Rebuilding a string from its own data is the identity. -/
theorem stringMk_data (s : String) : String.mk s.data = s := rfl

/-- Setting a key makes `dictGet` of that key return the new value. -/
theorem dictGet_dictSet_self (d : Dict) (k v : String) :
    dictGet (dictSet d k v) k = some v := by
  unfold dictSet dictGet
  by_cases h : d.any (fun p => p.1 = k)
  · simp only [h, if_pos, List.find?_map]
    have hcomp :
        ((fun p : String × String => decide (p.1 = k)) ∘
          (fun p => if p.1 = k then (k, v) else p))
        = fun p : String × String => decide (p.1 = k) := by
      funext q
      by_cases hq : q.1 = k <;> simp [hq]
    rw [hcomp]
    have hex : ∃ x, d.find? (fun p => decide (p.1 = k)) = some x := by
      rw [← Option.isSome_iff_exists, List.find?_isSome]
      simpa [List.any_eq_true] using h
    obtain ⟨x, hx⟩ := hex
    have hxk : x.1 = k := by simpa using List.find?_some hx
    simp [hx, hxk]
  · simp only [h, Bool.false_eq_true, if_false, List.find?_append]
    have hnone : d.find? (fun p => decide (p.1 = k)) = none := by
      rw [List.find?_eq_none]
      intro x hx
      simp only [decide_eq_true_eq]
      intro hxk
      exact h (List.any_eq_true.mpr ⟨x, hx, by simp [hxk]⟩)
    simp [hnone]

/-- Setting a key leaves `dictGet` of a different key unchanged. -/
theorem dictGet_dictSet_ne (d : Dict) (k v k' : String) (h : k' ≠ k) :
    dictGet (dictSet d k v) k' = dictGet d k' := by
  have hkk' : k ≠ k' := fun hh => h hh.symm
  unfold dictSet dictGet
  by_cases hany : d.any (fun p => p.1 = k)
  · simp only [hany, if_pos, List.find?_map]
    have hcomp :
        ((fun p : String × String => decide (p.1 = k')) ∘
          (fun p => if p.1 = k then (k, v) else p))
        = fun p : String × String => decide (p.1 = k') := by
      funext q
      by_cases hq : q.1 = k <;> simp [hq, hkk']
    rw [hcomp]
    cases hfind : d.find? (fun p => decide (p.1 = k')) with
    | none => simp
    | some x =>
      have hx : x.1 = k' := by simpa using List.find?_some hfind
      have hxne : ¬ x.1 = k := by rw [hx]; exact h
      simp [hxne]
  · simp only [hany, Bool.false_eq_true, if_false, List.find?_append]
    cases hfind : d.find? (fun p => decide (p.1 = k')) with
    | none => simp [hfind, hkk']
    | some x => simp [hfind]

/-- The first component of `loadLoop` (the `pre_clone` lines) is the running
accumulator followed by the spec-side collection. -/
theorem loadLoop_fst (lines : List String) :
    ∀ (cs : Option String) (pre post : List String) (conf : Dict),
      (loadLoop lines cs pre post conf).1 = pre ++ collectSection "pre_clone" cs lines := by
  induction lines with
  | nil => intro cs pre post conf; simp [loadLoop, collectSection]
  | cons line rest ih =>
    intro cs pre post conf
    simp only [loadLoop, collectSection]
    split_ifs with h1 h2 h3 h4 h5 <;> simp [ih]

/-- The second component of `loadLoop` (the `post_clone` lines) is the
running accumulator followed by the spec-side collection. -/
theorem loadLoop_snd (lines : List String) :
    ∀ (cs : Option String) (pre post : List String) (conf : Dict),
      (loadLoop lines cs pre post conf).2.1 = post ++ collectSection "post_clone" cs lines := by
  induction lines with
  | nil => intro cs pre post conf; simp [loadLoop, collectSection]
  | cons line rest ih =>
    intro cs pre post conf
    simp only [loadLoop, collectSection]
    split_ifs with h1 h2 h3 h4 h5 <;> try simp [ih]
    exact absurd (h3.symm.trans h4) (by simp)

/-- Claim C9: canonical tag derivation is not injective: the distinct branch
names `a/b` and `a-b` give the same image tag for every repository, because
sanitization maps every character outside `[a-zA-Z0-9._-]` to `-`. -/
theorem image_tag_not_injective (repo_name : String) :
    "a/b" ≠ "a-b" ∧ image_tag repo_name "a/b" = image_tag repo_name "a-b" := by
  refine ⟨by decide, ?_⟩
  unfold image_tag
  have h : sanitize_tag "a/b" = sanitize_tag "a-b" := by decide
  rw [h]

/-- Claim C10: every label mapping built by `build_labels` carries a
`dkr.branch_from` entry equal to `branch_from or branch`: the originating ref
when a truthy one was supplied, the checked-out branch name otherwise; in
particular the entry is present, and non-empty whenever `branch` is
non-empty. -/
theorem build_labels_branch_from_spec
    (repo_path repo_name branch commit image_type created_at : String)
    (branch_from : Option String) :
    dictGet (build_labels repo_path repo_name branch commit image_type created_at branch_from)
        "dkr.branch_from" = some (pyOrS branch_from branch)
    ∧ (∀ s, branch_from = some s → s ≠ "" → pyOrS branch_from branch = s)
    ∧ ((branch_from = none ∨ branch_from = some "") → pyOrS branch_from branch = branch)
    ∧ (branch ≠ "" → pyOrS branch_from branch ≠ "") := by
  refine ⟨rfl, ?_, ?_, ?_⟩
  · rintro s rfl hs
    simp [pyOrS, hs]
  · rintro (rfl | rfl) <;> simp [pyOrS]
  · intro hb
    match branch_from with
    | none => simpa [pyOrS] using hb
    | some s =>
      by_cases hs : s = "" <;> simp [pyOrS, hs, hb]

/-- Witness for C10 at a concrete input. -/
theorem build_labels_branch_from_spec_witness :
    dictGet (build_labels "/r" "r" "main" "c" "base" "t" (some "origin/main"))
        "dkr.branch_from" = some "origin/main" := by
  have h := build_labels_branch_from_spec "/r" "r" "main" "c" "base" "t" (some "origin/main")
  rw [h.1, h.2.1 "origin/main" rfl (by decide)]

/-- Claim C4: the drift threshold is exclusive. With the commit and
comparison-branch labels present and the branch resolvable, a drift count of
exactly 50 makes `staleness_check` return `proceed` (Fresh) for every
decision callback (so the callback is never consulted), while a count of 51
or more makes the outcome exactly the callback's answer on the literal
count. -/
theorem staleness_threshold_exclusive (labels : Dict) (revParseVerify : String → String)
    (revListCount : String → Except Unit Nat) (count : Nat) (promptAnywayYes : Bool)
    (hcommit : pyTruthy (dictGet labels "dkr.commit") = true)
    (hbranch : pyTruthy (stalenessBranch labels) = true)
    (hverify : revParseVerify ((stalenessBranch labels).getD "") ≠ "")
    (hcount : revListCount (stalenessRange labels) = .ok count) :
    (count = 50 → ∀ promptUpdateYes : Nat → Bool,
        staleness_check labels revParseVerify revListCount promptUpdateYes promptAnywayYes
          = .proceed)
    ∧ (51 ≤ count → ∀ promptUpdateYes : Nat → Bool,
        staleness_check labels revParseVerify revListCount promptUpdateYes promptAnywayYes
          = if promptUpdateYes count then .update else .proceed) := by
  constructor
  · rintro rfl promptUpdateYes
    simp [staleness_check, hcommit, hbranch, hverify, hcount, STALENESS_THRESHOLD]
  · intro h51 promptUpdateYes
    simp only [staleness_check, hcommit, hbranch, hverify, hcount, Bool.not_true,
      Bool.or_self, Bool.false_eq_true, if_false, if_neg hverify]
    rw [if_pos (by simp [STALENESS_THRESHOLD]; omega)]

/-- Witness for C4 at a concrete input (drift 51, callback answers yes). -/
theorem staleness_threshold_exclusive_witness :
    staleness_check [("dkr.commit", "c"), ("dkr.branch", "main")]
        (fun _ => "ref") (fun _ => .ok 51) (fun _ => true) false = .update := by
  have h := (staleness_threshold_exclusive [("dkr.commit", "c"), ("dkr.branch", "main")]
    (fun _ => "ref") (fun _ => .ok 51) 51 false (by decide) (by decide) (by decide) rfl).2
    (by omega) (fun _ => true)
  simpa using h

/-- Claim C7: trust-the-image early exits: if the commit label or the
(preferred) comparison-branch label is falsy, or `git rev-parse --verify`
on the comparison branch reports nothing, `staleness_check` returns
`proceed` (Fresh) for every commit-count outcome and every callback — so
the drift count is never used and no callback is consulted. -/
theorem staleness_trust_image_early_exit (labels : Dict) (revParseVerify : String → String)
    (revListCount : String → Except Unit Nat) (promptUpdateYes : Nat → Bool)
    (promptAnywayYes : Bool)
    (h : pyTruthy (dictGet labels "dkr.commit") = false
       ∨ pyTruthy (stalenessBranch labels) = false
       ∨ revParseVerify ((stalenessBranch labels).getD "") = "") :
    staleness_check labels revParseVerify revListCount promptUpdateYes promptAnywayYes
      = .proceed := by
  rcases h with h | h | h
  · simp [staleness_check, h]
  · simp [staleness_check, h]
  · simp [staleness_check, h]

/-- Witness for C7 at a concrete input (no labels at all). -/
theorem staleness_trust_image_early_exit_witness :
    staleness_check [] (fun _ => "ref") (fun _ => .ok 1000) (fun _ => true) true
      = .proceed :=
  staleness_trust_image_early_exit [] (fun _ => "ref") (fun _ => .ok 1000)
    (fun _ => true) true (Or.inl (by decide))

/-- Counterexample to claim C2 as stated: a comment line inside a
`[pre_clone]` section is dropped by the loader, not preserved. -/
theorem load_conf_comment_dropped_counterexample :
    dictGet (load_dkr_conf ["[pre_clone]", "# keep me", "RUN a"]) "pre_clone" = some "RUN a"
    ∧ some "RUN a" ≠ some ("# keep me" ++ "\n" ++ "RUN a") := by decide

/-- Claim C2 (amended): for every config file, the `pre_clone`/`post_clone`
fragments are exactly the section's lines — kept verbatim and untrimmed,
joined by newlines — except that blank lines, lines whose stripped form
starts with `#`, and section-header-shaped lines are discarded (the latter
switch sections). -/
theorem load_conf_section_fragments (lines : List String) :
    dictGet (load_dkr_conf lines) "pre_clone"
      = some (pyJoin "\n" (collectSection "pre_clone" none lines))
    ∧ dictGet (load_dkr_conf lines) "post_clone"
      = some (pyJoin "\n" (collectSection "post_clone" none lines)) := by
  unfold load_dkr_conf
  constructor
  · rw [dictGet_dictSet_ne _ _ _ _ (by decide), dictGet_dictSet_self, loadLoop_fst]
    simp
  · rw [dictGet_dictSet_self, loadLoop_snd]
    simp

/-- Counterexample to claim C3 as stated: a `key = value` line inside an
unrecognized section does change the returned config. -/
theorem unknown_section_leaks_counterexample :
    dictGet (load_dkr_conf ["[custom]", "base_image = evil"]) "base_image" = some "evil"
    ∧ dictGet (load_dkr_conf []) "base_image" = some "fedora:43"
    ∧ some "evil" ≠ some "fedora:43" := by decide

/-- The char list underlying a bracket-delimited line. -/
theorem bracket_data (s : String) :
    ("[" ++ s ++ "]").data = '[' :: (s.data ++ [']']) := by
  simp

/-- Stripping is the identity on a bracket-delimited line. -/
theorem pyStrip_bracket (s : String) :
    pyStrip ("[" ++ s ++ "]") = "[" ++ s ++ "]" := by
  unfold pyStrip pyStripList
  rw [bracket_data]
  rw [List.dropWhile_cons_of_neg (by decide)]
  rw [show ('[' :: (s.data ++ [']'])).reverse = ']' :: (s.data.reverse ++ ['[']) by simp]
  rw [List.dropWhile_cons_of_neg (by decide)]
  apply congrArg
  simp

/-- The loader's output does not depend on the current section, as long as
neither section in play is `pre_clone` or `post_clone` and no further
section header occurs. -/
theorem loadLoop_cs_irrel :
    ∀ (rest : List String), (∀ l ∈ rest, isHeaderLine (pyStrip l) = false) →
    ∀ (cs cs' : Option String), cs ≠ some "pre_clone" → cs ≠ some "post_clone" →
      cs' ≠ some "pre_clone" → cs' ≠ some "post_clone" →
    ∀ (pre post : List String) (conf : Dict),
      loadLoop rest cs pre post conf = loadLoop rest cs' pre post conf := by
  intro rest
  induction rest with
  | nil => intros; rfl
  | cons l t ih =>
    intro hrest cs cs' h1 h2 h3 h4 pre post conf
    have hl : isHeaderLine (pyStrip l) = false := hrest l (by simp)
    have ht : ∀ x ∈ t, isHeaderLine (pyStrip x) = false := fun x hx => hrest x (by simp [hx])
    simp only [loadLoop]
    split_ifs with c1 c2 <;>
      first
        | exact ih ht cs cs' h1 h2 h3 h4 _ _ _
        | exact absurd c2 (by simp [hl])

/-- Claim C3 (amended): an unrecognized section header has no sectioning
effect at all — the following lines (assuming they contain no further
section header) are processed exactly as top-level lines, so a
`key = value` line inside an unrecognized section updates the config and
any other line is discarded. -/
theorem unknown_section_processed_as_toplevel (s : String) (rest : List String)
    (h1 : s ≠ "pre_clone") (h2 : s ≠ "post_clone")
    (h3 : ∀ l ∈ rest, isHeaderLine (pyStrip l) = false) :
    load_dkr_conf (("[" ++ s ++ "]") :: rest) = load_dkr_conf rest := by
  unfold load_dkr_conf
  have hne : ¬ ("[" ++ s ++ "]") = "" := by
    intro hh
    have hd := congrArg String.data hh
    rw [bracket_data] at hd
    cases hd
  have hhash : pyStartsWith ("[" ++ s ++ "]") "#" = false := by
    unfold pyStartsWith
    rw [bracket_data, show ("#" : String).data = ['#'] from rfl]
    have hc : ('#' == '[') = false := by decide
    simp [List.isPrefixOf, hc]
  have hheader : isHeaderLine ("[" ++ s ++ "]") = true := by
    unfold isHeaderLine pyStartsWith pyEndsWith
    rw [show ("[" : String).data = ['['] from rfl, show ("]" : String).data = [']'] from rfl,
      bracket_data]
    have hrev : ('[' :: (s.data ++ [']'])).reverse = ']' :: (s.data.reverse ++ ['[']) := by simp
    simp [List.isSuffixOf, List.isPrefixOf, hrev]
  have hname : headerName ("[" ++ s ++ "]") = s := by
    unfold headerName
    rw [bracket_data]
    simp
  have hstep : loadLoop (("[" ++ s ++ "]") :: rest) none [] [] DKR_CONF_DEFAULTS
      = loadLoop rest (some s) [] [] DKR_CONF_DEFAULTS := by
    simp only [loadLoop, pyStrip_bracket]
    rw [if_neg (by simp [hne, hhash]), if_pos hheader, hname]
  rw [hstep]
  rw [loadLoop_cs_irrel rest h3 (some s) none (by simpa using h1) (by simpa using h2)
    (by simp) (by simp)]

/-- Witness for C3 (amended) at a concrete input. -/
theorem unknown_section_processed_as_toplevel_witness :
    load_dkr_conf ["[custom]", "a = b"] = load_dkr_conf ["a = b"] := by
  have h := unknown_section_processed_as_toplevel "custom" ["a = b"]
    (by decide) (by decide) (by decide)
  simpa using h

/-- Counterexample to claim C1 as stated: a config whose `packages` value
repeats a non-baseline package keeps both occurrences, so merging a
duplicate-containing list differs from merging the deduplicated one. -/
theorem all_pkgs_duplicate_not_collapsed :
    all_pkgs "foo foo" = REQUIRED_PACKAGES ++ ["foo", "foo"]
    ∧ all_pkgs "foo" = REQUIRED_PACKAGES ++ ["foo"]
    ∧ all_pkgs "foo foo" ≠ all_pkgs "foo" := by decide

/-- Claim C1 (amended): the synthesized package list is the baseline in its
fixed order followed by the user's packages in file order with baseline
members removed; each baseline package appears exactly once (duplicating a
baseline package is collapsed), while a non-baseline package appears exactly
as often as in the user list (duplicates there are kept, so the merge is not
idempotent for them). -/
theorem all_pkgs_merge_spec (packages p : String) :
    (all_pkgs packages).take REQUIRED_PACKAGES.length = REQUIRED_PACKAGES
    ∧ (p ∈ REQUIRED_PACKAGES → (all_pkgs packages).count p = 1)
    ∧ (p ∉ REQUIRED_PACKAGES → (all_pkgs packages).count p = (user_pkgs packages).count p) := by
  refine ⟨?_, ?_, ?_⟩
  · unfold all_pkgs
    exact List.take_left REQUIRED_PACKAGES _
  · intro hp
    unfold all_pkgs
    rw [List.count_append]
    have h2 : ((user_pkgs packages).filter (fun q => !(REQUIRED_PACKAGES.contains q))).count p = 0 := by
      rw [List.count_eq_zero]
      intro hmem
      have := List.of_mem_filter hmem
      simp [List.contains, hp] at this
    rw [h2]
    fin_cases hp <;> decide
  · intro hp
    unfold all_pkgs
    rw [List.count_append]
    have h1 : REQUIRED_PACKAGES.count p = 0 := by
      rw [List.count_eq_zero]
      exact hp
    have h2 : ((user_pkgs packages).filter (fun q => !(REQUIRED_PACKAGES.contains q))).count p
        = (user_pkgs packages).count p := by
      apply List.count_filter
      simp [List.contains, hp]
    rw [h1, h2, Nat.zero_add]

/-- Counterexample to claim C5 as stated: in a repository with no configured
remotes, the stripped `git remote` output is `""`, whose newline-split is
`[""]`, so `"/x"` — whose first segment `""` is not a configured remote — is
nevertheless split into the empty remote and `"x"` instead of being returned
unchanged. -/
theorem parse_branch_ref_empty_remotes_counterexample :
    parse_branch_ref (some "/x") (some []) = (some "", "x")
    ∧ parse_branch_ref (some "/x") (some []) ≠ (none, "/x") := by decide

/-- The newline-split of the `git remote` output is the configured remote
list, provided at least one remote is configured (remote names contain no
newline). -/
theorem pySplitOn_gitRemoteStdout (remotes : List String)
    (hne : remotes ≠ []) (hnl : ∀ r ∈ remotes, '\n' ∉ r.data) :
    pySplitOn (gitRemoteStdout remotes) '\n' = remotes := by
  unfold pySplitOn gitRemoteStdout pyJoin
  rw [show (String.mk (List.intercalate ("\n" : String).data (remotes.map String.data))).data
      = List.intercalate ['\n'] (remotes.map String.data) from rfl]
  rw [List.splitOn_intercalate (remotes.map String.data) '\n'
    (by intro l hl; obtain ⟨r, hr, rfl⟩ := List.mem_map.mp hl; exact hnl r hr)
    (by simpa using hne)]
  rw [List.map_map]
  simp [Function.comp_def, stringMk_data]

/-- Claim C5 (amended): for every non-empty `raw_ref` other than `HEAD`, in a
repository with at least one configured remote, `parse_branch_ref` returns
(first segment, rest after the first `/`) exactly when `raw_ref` contains a
`/` and its first segment is a configured remote, and `(None, raw_ref)`
unchanged otherwise.  (With zero remotes the newline-split degenerates, see
the counterexample.) -/
theorem parse_branch_ref_spec (bf : String) (remotes : List String)
    (h1 : bf ≠ "") (h2 : bf ≠ "HEAD")
    (hne : remotes ≠ []) (hnl : ∀ r ∈ remotes, '\n' ∉ r.data) :
    parse_branch_ref (some bf) (some remotes) =
      if pyContainsChar bf '/' && remotes.contains (pyPartitionFst bf '/') then
        (some (pyPartitionFst bf '/'), pyPartitionSnd bf '/')
      else
        (none, bf) := by
  unfold parse_branch_ref
  rw [if_neg (by simp [pyTruthy, h1, h2])]
  simp only [Option.getD_some, Option.isSome_some, Bool.and_true]
  rw [pySplitOn_gitRemoteStdout remotes hne hnl]
  by_cases hc : pyContainsChar bf '/'
  · simp [hc]
  · simp [hc]

/-- Witness for C5 (amended) at a concrete input. -/
theorem parse_branch_ref_spec_witness :
    parse_branch_ref (some "origin/main") (some ["origin"]) = (some "origin", "main") := by
  have h := parse_branch_ref_spec "origin/main" ["origin"]
    (by decide) (by decide) (by decide) (by decide)
  rw [h]
  decide

/-- The order `leChars` is reflexive. -/
theorem leChars_refl : ∀ l : List Char, leChars l l = true
  | [] => rfl
  | a :: as => by simp [leChars, lt_irrefl, leChars_refl as]

/-- The order `leChars` is total. -/
theorem leChars_total : ∀ a b : List Char, leChars a b = true ∨ leChars b a = true
  | [], _ => Or.inl rfl
  | _ :: _, [] => Or.inr rfl
  | x :: xs, y :: ys => by
    rcases lt_trichotomy x y with h | h | h
    · exact Or.inl (by simp [leChars, h])
    · subst h
      rcases leChars_total xs ys with ih | ih
      · exact Or.inl (by simp [leChars, lt_irrefl, ih])
      · exact Or.inr (by simp [leChars, lt_irrefl, ih])
    · exact Or.inr (by simp [leChars, h])

/-- The order `leChars` is transitive. -/
theorem leChars_trans : ∀ a b c : List Char,
    leChars a b = true → leChars b c = true → leChars a c = true
  | [], _, _ => fun _ _ => rfl
  | _ :: _, [], _ => fun hab => by simp [leChars] at hab
  | _ :: _, _ :: _, [] => fun _ hbc => by simp [leChars] at hbc
  | x :: xs, y :: ys, z :: zs => fun hab hbc => by
    simp only [leChars] at hab hbc ⊢
    rcases lt_trichotomy x y with hxy | hxy | hxy
    · rcases lt_trichotomy y z with hyz | hyz | hyz
      · simp [lt_trans hxy hyz]
      · subst hyz
        simp [hxy]
      · rw [if_neg (asymm hyz), if_pos hyz] at hbc
        cases hbc
    · subst hxy
      rcases lt_trichotomy x z with hyz | hyz | hyz
      · simp [hyz]
      · subst hyz
        rw [if_neg (lt_irrefl x), if_neg (lt_irrefl x)] at hab hbc ⊢
        exact leChars_trans _ _ _ hab hbc
      · rw [if_neg (asymm hyz), if_pos hyz] at hbc
        cases hbc
    · rw [if_neg (asymm hxy), if_pos hxy] at hab
      cases hab

/-- Counterexample to claim C6 as stated: a malformed `docker inspect`
output (a raising `json.loads`) is not recovered as an empty inventory — the
error propagates. -/
theorem find_images_malformed_inspect_propagates :
    find_images none none ⟨0, "abc"⟩ ⟨0, "not json"⟩ (fun _ => .error ()) = .error ()
    ∧ (Except.error () : Except Unit (List ImageRecord)) ≠ .ok [] :=
  ⟨rfl, nofun⟩

/-- Claim C6 (amended): a failing listing command, an empty listing output,
or a failing inspection command yields the empty list; only a malformed
inspection output (a `json.loads` failure) escapes as an error. -/
theorem find_images_cmd_failure_empty (repo_path branch : Option String)
    (listResult inspectResult : CmdResult)
    (jsonParse : String → Except Unit (List DockerImage))
    (h : listResult.returncode ≠ 0 ∨ pyStrip listResult.stdout = ""
       ∨ inspectResult.returncode ≠ 0) :
    find_images repo_path branch listResult inspectResult jsonParse = .ok [] := by
  rcases h with h | h | h
  · simp [find_images, h]
  · simp [find_images, h]
  · unfold find_images
    split_ifs <;> simp [h]

/-- Claim C8: the inventory listing is ordered by the creation-timestamp
label, descending and lexicographic: whenever `find_images` succeeds, a
record with a strictly greater timestamp key precedes every record with a
smaller one, regardless of the order the store returned them in. -/
theorem find_images_sorted_desc (repo_path branch : Option String)
    (listResult inspectResult : CmdResult)
    (jsonParse : String → Except Unit (List DockerImage))
    (out : List ImageRecord)
    (hout : find_images repo_path branch listResult inspectResult jsonParse = .ok out)
    (i j : Nat) (hi : i < out.length) (hj : j < out.length)
    (hgt : pyStrLe (createdKey (out.get ⟨i, hi⟩)) (createdKey (out.get ⟨j, hj⟩)) = false) :
    i < j := by
  haveI instt : IsTrans ImageRecord (fun a b => pyStrLe (createdKey b) (createdKey a) = true) :=
    ⟨fun a b c hab hbc => leChars_trans _ _ _ hbc hab⟩
  haveI insto : IsTotal ImageRecord (fun a b => pyStrLe (createdKey b) (createdKey a) = true) :=
    ⟨fun a b => leChars_total _ _⟩
  have hpw : out.Sorted (fun a b => pyStrLe (createdKey b) (createdKey a) = true) := by
    unfold find_images at hout
    split_ifs at hout with h1 h2 h3
    · obtain rfl : ([] : List ImageRecord) = out := by simpa using hout
      exact List.sorted_nil
    · obtain rfl : ([] : List ImageRecord) = out := by simpa using hout
      exact List.sorted_nil
    · obtain rfl : ([] : List ImageRecord) = out := by simpa using hout
      exact List.sorted_nil
    · cases hjson : jsonParse inspectResult.stdout with
      | error e => rw [hjson] at hout; simp at hout
      | ok images =>
        rw [hjson] at hout
        obtain rfl :
            (images.filterMap (imageRecordOf repo_path branch)).insertionSort
              (fun a b => pyStrLe (createdKey b) (createdKey a) = true) = out := by
          simpa using hout
        exact List.sorted_insertionSort _ _
  rcases Nat.lt_trichotomy i j with h | h | h
  · exact h
  · exfalso
    subst h
    simp [pyStrLe, leChars_refl] at hgt
  · exfalso
    have hr := @List.Sorted.rel_get_of_lt _ _ out hpw ⟨j, hj⟩ ⟨i, hi⟩ (Fin.mk_lt_mk.mpr h)
    simp only at hr
    rw [hgt] at hr
    cases hr

/-- Witness for C8 at a concrete input: two store-returned images arrive
oldest first, and the June record ends up before the January record. -/
theorem find_images_sorted_desc_witness : 0 < 1 :=
  find_images_sorted_desc none none ⟨0, "a\nb"⟩ ⟨0, "x"⟩
    (fun _ => .ok
      [⟨"i1", some ["t1"], some [("dkr.repo_name", "r"), ("dkr.created_at", "2024-01-01")]⟩,
       ⟨"i2", some ["t2"], some [("dkr.repo_name", "r"), ("dkr.created_at", "2024-06-01")]⟩])
    [⟨"i2", ["t2"], [("dkr.repo_name", "r"), ("dkr.created_at", "2024-06-01")]⟩,
     ⟨"i1", ["t1"], [("dkr.repo_name", "r"), ("dkr.created_at", "2024-01-01")]⟩]
    rfl 0 1 (by decide) (by decide) (by decide)

/-- Witness for C6 (amended) at a concrete input (listing fails). -/
theorem find_images_cmd_failure_empty_witness :
    find_images none none ⟨1, "x"⟩ ⟨0, "y"⟩ (fun _ => .error ()) = .ok [] :=
  find_images_cmd_failure_empty none none ⟨1, "x"⟩ ⟨0, "y"⟩ (fun _ => .error ())
    (Or.inl (by decide))

end Dkr
